import Mathlib

/-!
Verification of the syscall-hint layer (`src/hints/syscalls.rs`) against its
natural-language specification.  The Rust hints are shallowly embedded: VM
memory is a write-once association list of cells keyed by relocatable
addresses, field elements are `Nat`, fallible operations return `Except`,
and the two deliberate `panic!`/`expect` aborts in `fetch_state_entry_5`
are modelled by a dedicated `Outcome.panic` constructor.
-/

/-- A VM memory address: a (segment index, offset) pair, as in cairo-vm
`Relocatable`. -/
structure Relocatable where
  segmentIndex : Nat
  offset : Nat
  deriving DecidableEq, Repr

/-- A VM memory value (`MaybeRelocatable` in cairo-vm): either a relocatable
address or a field element.  Field elements (`Felt252`) are modelled as `Nat`;
the hints here only compare them for equality and convert them to sizes, so
the modulus never intervenes. -/
inductive MaybeRelocatable where
  | relocatableValue (r : Relocatable)
  | int (v : Nat)
  deriving DecidableEq, Repr

/-- Structured model of the `format!` payloads put into
`HintError::AssertionFailed` by the source.  The Rust code formats the
arguments into a string; the formatting is injective in its arguments, so the
message is modelled by the arguments themselves:
`returnValueMismatch` stands for
"Return value mismatch expected={expected:?}, actual={actual:?}." and
`inconsistentStorageValue` stands for
"Inconsistent storage value: {ids_value} <> {value}.". -/
inductive AssertMsg where
  | returnValueMismatch (expected actual : List (Option MaybeRelocatable))
  | inconsistentStorageValue (idsValue oracleValue : Nat)
  deriving DecidableEq, Repr

/-- Structured model of the `format!` payload put into
`HintError::CustomHint` by `cache_contract_storage_2`:
"Storage read error, contract: {contract_address}, key: {key}". -/
inductive CustomMsg where
  | storageReadError (contractAddress key : Nat)
  deriving DecidableEq, Repr

/-- The error kinds the embedded hints can return (a structured model of
cairo-vm `HintError` / `MemoryError` / `MathError` variants reachable from
this file). -/
inductive HintError where
  | identifierNotFound (name : String)
  | unknownMemoryCell (a : Relocatable)
  | expectedRelocatable (a : Relocatable)
  | expectedInteger (a : Relocatable)
  | unallocatedSegment (a : Relocatable)
  | inconsistentMemory (a : Relocatable) (oldVal newVal : MaybeRelocatable)
  | subDiffSegments (a b : Relocatable)
  | subNegOffset (a b : Relocatable)
  | feltToUsizeConversion (v : Nat)
  | variableNotInScope (name : String)
  | noDictTracker (segmentIndex : Nat)
  | customHint (m : CustomMsg)
  | assertionFailed (m : AssertMsg)
  deriving DecidableEq, Repr

/-- VM state: the number of allocated segments (`segments.add()` hands out
base addresses `(numSegments, 0)` in order) and the written memory cells. -/
structure VmState where
  numSegments : Nat
  mem : List (Relocatable × MaybeRelocatable)
  deriving DecidableEq, Repr

/-- Association-list lookup used for memory cells. -/
def memAssoc : List (Relocatable × MaybeRelocatable) → Relocatable → Option MaybeRelocatable
  | [], _ => none
  | (b, v) :: rest, a => if b = a then some v else memAssoc rest a

/-- `memory.get(addr)`: `none` models an unwritten (unknown) cell. -/
def VmState.memGet (s : VmState) (a : Relocatable) : Option MaybeRelocatable :=
  memAssoc s.mem a

/-- Pointer plus an integer offset (`Relocatable + usize`; offsets are `Nat`
here, so the overflow check of cairo-vm cannot fire). -/
def Relocatable.addOff (a : Relocatable) (n : Nat) : Relocatable :=
  ⟨a.segmentIndex, a.offset + n⟩

/-- `Relocatable - Relocatable` of cairo-vm: an element count when both
addresses are in the same segment and the left offset is not smaller,
an error otherwise. -/
def Relocatable.sub (a b : Relocatable) : Except HintError Nat :=
  if a.segmentIndex ≠ b.segmentIndex then .error (.subDiffSegments a b)
  else if a.offset < b.offset then .error (.subNegOffset a b)
  else .ok (a.offset - b.offset)

/-- `vm.get_range(addr, size)`: a list of `size` optional cells starting at
`addr`; unwritten cells come back as `none`, never as an error. -/
def VmState.getRange (s : VmState) (a : Relocatable) (size : Nat) :
    List (Option MaybeRelocatable) :=
  (List.range size).map (fun i => s.memGet (a.addOff i))

/-- `vm.get_integer(addr)`: the integer stored at `addr`, failing on an
unwritten cell or a relocatable value. -/
def VmState.getInteger (s : VmState) (a : Relocatable) : Except HintError Nat :=
  match s.memGet a with
  | some (.int v) => .ok v
  | some (.relocatableValue _) => .error (.expectedInteger a)
  | none => .error (.unknownMemoryCell a)

/-- `vm.get_relocatable(addr)`: the relocatable stored at `addr`, failing on
an unwritten cell or an integer value. -/
def VmState.getRelocatable (s : VmState) (a : Relocatable) : Except HintError Relocatable :=
  match s.memGet a with
  | some (.relocatableValue r) => .ok r
  | some (.int _) => .error (.expectedRelocatable a)
  | none => .error (.unknownMemoryCell a)

/-- Write-once memory insertion (`vm.insert_value`): fails on an unallocated
segment, succeeds silently when re-writing the same value, and fails with an
inconsistent-memory error when the cell already holds a different value. -/
def VmState.insert (s : VmState) (a : Relocatable) (v : MaybeRelocatable) :
    Except HintError VmState :=
  if s.numSegments ≤ a.segmentIndex then .error (.unallocatedSegment a)
  else
    match memAssoc s.mem a with
    | none => .ok { s with mem := (a, v) :: s.mem }
    | some w => if w = v then .ok s else .error (.inconsistentMemory a w v)

/-- `segments.add()` / `vm.add_memory_segment()`: the base address of a fresh
segment, together with the updated state. -/
def VmState.addMemorySegment (s : VmState) : Relocatable × VmState :=
  (⟨s.numSegments, 0⟩, { s with numSegments := s.numSegments + 1 })

/-- Identifier bindings: a map from the symbolic names used by the proven
program (`ids.…`) to the memory address of the corresponding cell. -/
abbrev Ids := List (String × Relocatable)

/-- Association-list lookup for identifier bindings. -/
def idsAssoc : List (String × Relocatable) → String → Option Relocatable
  | [], _ => none
  | (n, a) :: rest, name => if n = name then some a else idsAssoc rest name

/-- Resolve the cell address bound to an identifier name. -/
def idAddr (ids : Ids) (name : String) : Except HintError Relocatable :=
  match idsAssoc ids name with
  | some a => .ok a
  | none => .error (.identifierNotFound name)

/-- `get_ptr_from_var_name`: the relocatable value stored in the cell bound
to `name`. -/
def getPtrFromVarName (name : String) (s : VmState) (ids : Ids) :
    Except HintError Relocatable := do
  let a ← idAddr ids name
  s.getRelocatable a

/-- `get_integer_from_var_name`: the integer value stored in the cell bound
to `name`. -/
def getIntegerFromVarName (name : String) (s : VmState) (ids : Ids) :
    Except HintError Nat := do
  let a ← idAddr ids name
  s.getInteger a

/-- `insert_value_from_var_name`: write a value into the cell bound to
`name`. -/
def insertValueFromVarName (name : String) (v : MaybeRelocatable) (s : VmState)
    (ids : Ids) : Except HintError VmState := do
  let a ← idAddr ids name
  s.insert a v

/-- `felt_to_usize`: lossless conversion of a field element to a machine
size, failing when it does not fit in 64 bits. -/
def feltToUsize (v : Nat) : Except HintError Nat :=
  if v < 2 ^ 64 then .ok v else .error (.feltToUsizeConversion v)

instance {ε α : Type} [DecidableEq ε] [DecidableEq α] : DecidableEq (Except ε α) := fun x y =>
  match x, y with
  | .ok a, .ok b =>
    if h : a = b then .isTrue (by rw [h]) else .isFalse (by intro hc; cases hc; exact h rfl)
  | .ok _, .error _ => .isFalse (by intro hc; cases hc)
  | .error _, .ok _ => .isFalse (by intro hc; cases hc)
  | .error e, .error f =>
    if h : e = f then .isTrue (by rw [h]) else .isFalse (by intro hc; cases hc; exact h rfl)

/-- The response-verifier primitive, `assert_memory_ranges_equal`
(src/src/hints/syscalls.rs lines 462-479).  It takes the VM by shared
reference in the source, so it is embedded as a pure check that cannot touch
the state. -/
def assert_memory_ranges_equal (s : VmState) (expectedPtr : Relocatable)
    (expectedSize : Nat) (actualPtr : Relocatable) (actualSize : Nat) :
    Except HintError Unit :=
  let expected := s.getRange expectedPtr expectedSize
  let actual := s.getRange actualPtr actualSize
  if expected ≠ actual then
    .error (.assertionFailed (.returnValueMismatch expected actual))
  else
    .ok ()

/-- The execution oracle held by `ExecutionHelperWrapper`: the precomputed
(contract address, storage key) → value map behind
`read_storage_for_address`.  It is populated before the run and stable
across reads. -/
structure ExecutionHelper where
  storage : List ((Nat × Nat) × Nat)
  deriving DecidableEq, Repr

/-- Association-list lookup for the oracle's storage map. -/
def storageAssoc : List ((Nat × Nat) × Nat) → Nat → Nat → Option Nat
  | [], _, _ => none
  | ((c, k), v) :: rest, contractAddress, key =>
    if c = contractAddress ∧ k = key then some v else storageAssoc rest contractAddress key

/-- `execution_helper.read_storage_for_address(contract_address, key)`:
`none` models the `Err` case the hint maps to its storage-read error. -/
def readStorageForAddress (eh : ExecutionHelper) (contractAddress key : Nat) : Option Nat :=
  storageAssoc eh.storage contractAddress key

/-- `OsSyscallHandlerWrapper`: only its stored syscall pointer matters to
the hints shown (set by `set_syscall_ptr`, `None` before initialization). -/
structure OsSyscallHandler where
  syscallPtr : Option Relocatable
  deriving DecidableEq, Repr

/-- `DeprecatedOsSyscallHandlerWrapper`: the business logic lives outside
the shown source; the per-syscall hints only fetch it from the scope and
invoke one of its methods, so it carries no data here. -/
structure DeprecatedOsSyscallHandler where
  deriving DecidableEq, Repr

/-- The methods of the deprecated syscall handler that the per-syscall
hints can delegate to. -/
inductive DeprecatedSyscallMethod where
  | callContract
  | delegateCall
  | delegateL1Handler
  | deploy
  | emitEvent
  | getBlockNumber
  | getBlockTimestamp
  | getCallerAddress
  | getContractAddress
  | getSequencerAddress
  | getTxInfo
  | getTxSignature
  | libraryCall
  | libraryCallL1Handler
  | replaceClass
  | sendMessageToL1
  | storageRead
  | storageWrite
  deriving DecidableEq, Repr

/-- The `Dictionary` of the cairo-vm dict manager: plain or default-valued,
with `MaybeRelocatable` keys and values. -/
inductive Dictionary where
  | simpleDictionary (d : List (MaybeRelocatable × MaybeRelocatable))
  | defaultDictionary (d : List (MaybeRelocatable × MaybeRelocatable))
      (defaultValue : MaybeRelocatable)
  deriving DecidableEq, Repr

/-- Association-list lookup for dictionary data. -/
def dictAssoc : List (MaybeRelocatable × MaybeRelocatable) → MaybeRelocatable →
    Option MaybeRelocatable
  | [], _ => none
  | (k, v) :: rest, key => if k = key then some v else dictAssoc rest key

/-- A dict tracker: the data of one dictionary, keyed in the manager by the
segment index of the dictionary's memory segment. -/
structure DictTracker where
  data : Dictionary
  deriving DecidableEq, Repr

/-- The dict manager: trackers keyed by segment index. -/
structure DictManager where
  trackers : List (Nat × DictTracker)
  deriving DecidableEq, Repr

/-- Association-list lookup for trackers. -/
def trackerAssoc : List (Nat × DictTracker) → Nat → Option DictTracker
  | [], _ => none
  | (i, t) :: rest, idx => if i = idx then some t else trackerAssoc rest idx

/-- `dict_manager.get_tracker(dict_ptr)`: the tracker for the segment of
`dict_ptr`, an error when none is registered. -/
def getTracker (dm : DictManager) (dictPtr : Relocatable) : Except HintError DictTracker :=
  match trackerAssoc dm.trackers dictPtr.segmentIndex with
  | some t => .ok t
  | none => .error (.noDictTracker dictPtr.segmentIndex)

/-- The execution-scope store: the typed values the hints of this file
fetch from it (`exec_scopes.get::<T>(name)`), each `none` when absent. -/
structure ExecScopes where
  deprecatedSyscallHandler : Option DeprecatedOsSyscallHandler
  syscallHandler : Option OsSyscallHandler
  executionHelper : Option ExecutionHelper
  dictManager : Option DictManager
  deriving DecidableEq, Repr

/-- `exec_scopes.get::<DeprecatedOsSyscallHandlerWrapper>("syscall_handler")`. -/
def getDeprecatedSyscallHandler (scopes : ExecScopes) :
    Except HintError DeprecatedOsSyscallHandler :=
  match scopes.deprecatedSyscallHandler with
  | some h => .ok h
  | none => .error (.variableNotInScope "syscall_handler")

/-- `exec_scopes.get::<OsSyscallHandlerWrapper>(vars::scopes::SYSCALL_HANDLER)`. -/
def getOsSyscallHandler (scopes : ExecScopes) : Except HintError OsSyscallHandler :=
  match scopes.syscallHandler with
  | some h => .ok h
  | none => .error (.variableNotInScope "syscall_handler")

/-- `exec_scopes.get::<ExecutionHelperWrapper>(vars::scopes::EXECUTION_HELPER)`. -/
def getExecutionHelper (scopes : ExecScopes) : Except HintError ExecutionHelper :=
  match scopes.executionHelper with
  | some h => .ok h
  | none => .error (.variableNotInScope "execution_helper")

/-- `exec_scopes.get_dict_manager()`. -/
def getDictManager (scopes : ExecScopes) : Except HintError DictManager :=
  match scopes.dictManager with
  | some dm => .ok dm
  | none => .error (.variableNotInScope "dict_manager")

/-- Modelled from the spec: fixed struct offset of the `request` field of the
`StorageRead` syscall record; the `cairo_types` module defining these
offsets is not part of the shown source. -/
def StorageRead.request_offset : Nat := 0

/-- Modelled from the spec: fixed struct offset of the `address` (storage
key) field of `StorageReadRequest`; `cairo_types` is not in the shown
source. -/
def StorageReadRequest.address_offset : Nat := 1

/-- Modelled from the spec: offset of the legacy response's `retdata_size`
count field; `cairo_types` is not in the shown source. -/
def SyscallContractResponse.retdata_size_offset : Nat := 0

/-- Modelled from the spec: offset of the legacy response's `retdata`
pointer field; `cairo_types` is not in the shown source. -/
def SyscallContractResponse.retdata_offset : Nat := 1

/-- Modelled from the spec: offset of the current response's
`retdata_start` pointer field; `cairo_types` is not in the shown source. -/
def NewSyscallContractResponse.retdata_start_offset : Nat := 0

/-- Modelled from the spec: offset of the current response's `retdata_end`
pointer field; `cairo_types` is not in the shown source. -/
def NewSyscallContractResponse.retdata_end_offset : Nat := 1

/-- Modelled from the spec: offset of the deploy response's
`constructor_retdata_start` pointer field; `cairo_types` is not in the
shown source. -/
def NewDeployResponse.constructor_retdata_start_offset : Nat := 1

/-- Modelled from the spec: offset of the deploy response's
`constructor_retdata_end` pointer field; `cairo_types` is not in the shown
source. -/
def NewDeployResponse.constructor_retdata_end_offset : Nat := 2

/-- The `call_contract` hint (src lines 27-40): fetch the deprecated handler
from the scope, fetch `ids.syscall_ptr`, and invoke the handler's
`call_contract` method with it (the VM is passed alongside in the source so
the method can write the response).  The embedding returns which handler
method was invoked and with which pointer. -/
def call_contract (s : VmState) (scopes : ExecScopes) (ids : Ids) :
    Except HintError (DeprecatedSyscallMethod × Relocatable) := do
  let _handler ← getDeprecatedSyscallHandler scopes
  let syscallPtr ← getPtrFromVarName "syscall_ptr" s ids
  .ok (.callContract, syscallPtr)

/-- The `delegate_call` hint (src lines 44-57): fetch the deprecated handler
from the scope, fetch `ids.syscall_ptr`, and invoke a handler method with
it.  NOTE: faithful to the source, the method invoked at line 54 is
`storage_write`, although the hint's own source text (the `DELEGATE_CALL`
constant) reads `syscall_handler.delegate_call(...)`. -/
def delegate_call (s : VmState) (scopes : ExecScopes) (ids : Ids) :
    Except HintError (DeprecatedSyscallMethod × Relocatable) := do
  let _handler ← getDeprecatedSyscallHandler scopes
  let syscallPtr ← getPtrFromVarName "syscall_ptr" s ids
  .ok (.storageWrite, syscallPtr)

/-- The handler method named by the `DELEGATE_CALL` hint-source constant
(src line 42): `syscall_handler.delegate_call(segments=segments,
syscall_ptr=ids.syscall_ptr)`. -/
def delegateCallHintTextMethod : DeprecatedSyscallMethod := .delegateCall

/-- The `storage_write` hint (src lines 323-336): fetches the handler and
`ids.syscall_ptr`, then invokes the handler's `storage_write` method. -/
def storage_write (s : VmState) (scopes : ExecScopes) (ids : Ids) :
    Except HintError (DeprecatedSyscallMethod × Relocatable) := do
  let _handler ← getDeprecatedSyscallHandler scopes
  let syscallPtr ← getPtrFromVarName "syscall_ptr" s ids
  .ok (.storageWrite, syscallPtr)

/-- The `set_syscall_ptr` hint (src lines 345-362): allocate two fresh
segments, write the first base into `ids.os_context` and the second into
`ids.syscall_ptr`, then store the second base as the OS syscall handler's
current syscall pointer.  Returns the updated VM state and scope store. -/
def set_syscall_ptr (s : VmState) (scopes : ExecScopes) (ids : Ids) :
    Except HintError (VmState × ExecScopes) := do
  let (osContext, s1) := s.addMemorySegment
  let (syscallPtr, s2) := s1.addMemorySegment
  let s3 ← insertValueFromVarName "os_context" (.relocatableValue osContext) s2 ids
  let s4 ← insertValueFromVarName "syscall_ptr" (.relocatableValue syscallPtr) s3 ids
  let handler ← getOsSyscallHandler scopes
  .ok (s4, { scopes with syscallHandler := some { handler with syscallPtr := some syscallPtr } })

/-- The two abort messages of `fetch_state_entry_5`:
`stateChangesDictNone` stands for the `expect` message
"State changes dictionnary shouldn't be None" (missing key), and
`stateChangesDefaultDict` for the `panic!` message
"State changes dict shouldn't be a default dict". -/
inductive PanicMsg where
  | stateChangesDictNone
  | stateChangesDefaultDict
  deriving DecidableEq, Repr

/-- Outcome of a hint whose Rust body can abort the process: `ok`/`err`
mirror `Result`, and `panic` models `panic!`/`expect` aborts. -/
inductive Outcome (α : Type) where
  | ok (a : α)
  | err (e : HintError)
  | panic (m : PanicMsg)
  deriving DecidableEq, Repr

/-- The `fetch_state_entry_5` hint (src lines 401-423): look the contract
address up in the state-changes dictionary (aborting on a default-valued
dictionary or a missing entry), write the found entry into
`ids.state_entry`, and allocate a fresh segment into
`ids.new_state_entry`. -/
def fetch_state_entry_5 (s : VmState) (scopes : ExecScopes) (ids : Ids) : Outcome VmState :=
  match getIntegerFromVarName "contract_address" s ids with
  | .error e => .err e
  | .ok key =>
    match getPtrFromVarName "contract_state_changes" s ids with
    | .error e => .err e
    | .ok dictPtr =>
      match getDictManager scopes with
      | .error e => .err e
      | .ok dm =>
        match getTracker dm dictPtr with
        | .error e => .err e
        | .ok tracker =>
          match tracker.data with
          | .defaultDictionary _ _ => .panic .stateChangesDefaultDict
          | .simpleDictionary d =>
            match dictAssoc d (.int key) with
            | none => .panic .stateChangesDictNone
            | some val =>
              match insertValueFromVarName "state_entry" val s ids with
              | .error e => .err e
              | .ok s1 =>
                let (seg, s2) := s1.addMemorySegment
                match insertValueFromVarName "new_state_entry" (.relocatableValue seg) s2 ids with
                | .error e => .err e
                | .ok s3 => .ok s3

/-- The oracle read of `cache_contract_storage_2` with its
`.map_err(...)?` (src lines 446-450): a lookup failure becomes the
storage-read error tagged with the contract address and key. -/
def readStorageOrError (eh : ExecutionHelper) (contractAddress key : Nat) :
    Except HintError Nat :=
  match readStorageForAddress eh contractAddress key with
  | some v => .ok v
  | none => .error (.customHint (.storageReadError contractAddress key))

/-- The `cache_contract_storage_2` hint (src lines 433-460): read
`ids.contract_address` and the storage key from the syscall request, query
the oracle (mapping a lookup failure to the storage-read error), and assert
that `ids.value` equals the oracle's value, failing with the
inconsistent-storage-value assertion otherwise. -/
def cache_contract_storage_2 (s : VmState) (scopes : ExecScopes) (ids : Ids) :
    Except HintError VmState := do
  let contractAddress ← getIntegerFromVarName "contract_address" s ids
  let syscallPtr ← getPtrFromVarName "syscall_ptr" s ids
  let key ← s.getInteger
    (syscallPtr.addOff (StorageRead.request_offset + StorageReadRequest.address_offset))
  let eh ← getExecutionHelper scopes
  let value ← readStorageOrError eh contractAddress key
  let idsValue ← getIntegerFromVarName "value" s ids
  if idsValue ≠ value then
    Except.error (.assertionFailed (.inconsistentStorageValue idsValue value))
  else
    .ok s

/-- The `check_syscall_response` hint (src lines 491-510): decode the legacy
response envelope `(retdata, retdata_size)` from `ids.call_response`, the
program's declared `(retdata, retdata_size)`, and compare the two memory
ranges. -/
def check_syscall_response (s : VmState) (ids : Ids) : Except HintError VmState := do
  let callResponsePtr ← getPtrFromVarName "call_response" s ids
  let callResponseRetdata ←
    s.getRelocatable (callResponsePtr.addOff SyscallContractResponse.retdata_offset)
  let sizeFelt ←
    s.getInteger (callResponsePtr.addOff SyscallContractResponse.retdata_size_offset)
  let callResponseRetdataSize ← feltToUsize sizeFelt
  let retdata ← getPtrFromVarName "retdata" s ids
  let retdataSizeFelt ← getIntegerFromVarName "retdata_size" s ids
  let retdataSize ← feltToUsize retdataSizeFelt
  let _ ← assert_memory_ranges_equal s callResponseRetdata callResponseRetdataSize
    retdata retdataSize
  .ok s

/-- The `check_new_syscall_response` hint (src lines 523-544): decode the
current response envelope from `ids.response` as `retdata_start` plus the
pointer difference `retdata_end - retdata_start`, the program's declared
`(retdata, retdata_size)`, and compare the two memory ranges. -/
def check_new_syscall_response (s : VmState) (ids : Ids) : Except HintError VmState := do
  let responsePtr ← getPtrFromVarName "response" s ids
  let retdataStart ←
    s.getRelocatable (responsePtr.addOff NewSyscallContractResponse.retdata_start_offset)
  let retdataEnd ←
    s.getRelocatable (responsePtr.addOff NewSyscallContractResponse.retdata_end_offset)
  let responseRetdataSize ← retdataEnd.sub retdataStart
  let retdata ← getPtrFromVarName "retdata" s ids
  let retdataSizeFelt ← getIntegerFromVarName "retdata_size" s ids
  let retdataSize ← feltToUsize retdataSizeFelt
  let _ ← assert_memory_ranges_equal s retdataStart responseRetdataSize retdata retdataSize
  .ok s

/-- The `check_new_deploy_response` hint (src lines 556-577): like
`check_new_syscall_response` but decoding
`constructor_retdata_start`/`constructor_retdata_end` from the deploy
response envelope. -/
def check_new_deploy_response (s : VmState) (ids : Ids) : Except HintError VmState := do
  let responsePtr ← getPtrFromVarName "response" s ids
  let retdataStart ←
    s.getRelocatable (responsePtr.addOff NewDeployResponse.constructor_retdata_start_offset)
  let retdataEnd ←
    s.getRelocatable (responsePtr.addOff NewDeployResponse.constructor_retdata_end_offset)
  let responseRetdataSize ← retdataEnd.sub retdataStart
  let retdata ← getPtrFromVarName "retdata" s ids
  let retdataSizeFelt ← getIntegerFromVarName "retdata_size" s ids
  let retdataSize ← feltToUsize retdataSizeFelt
  let _ ← assert_memory_ranges_equal s retdataStart responseRetdataSize retdata retdataSize
  .ok s

/-- Concrete state for exercising `fetch_state_entry_5`: `ids.contract_address`
holds `5` and `ids.contract_state_changes` points into segment 1. -/
def sFetch : VmState := ⟨2, [(⟨0, 0⟩, .int 5), (⟨0, 1⟩, .relocatableValue ⟨1, 0⟩)]⟩

/-- Identifier bindings for the `fetch_state_entry_5` runs. -/
def idsFetch : Ids := [("contract_address", ⟨0, 0⟩), ("contract_state_changes", ⟨0, 1⟩),
  ("state_entry", ⟨0, 2⟩), ("new_state_entry", ⟨0, 3⟩)]

/-- Scope store whose dict manager tracks segment 1 as a default-valued
dictionary. -/
def scopesFetchDefault : ExecScopes :=
  ⟨none, none, none, some ⟨[(1, ⟨.defaultDictionary [] (.int 0)⟩)]⟩⟩

/-- Scope store whose dict manager tracks segment 1 as an empty plain
dictionary (so the key `5` is missing). -/
def scopesFetchMissing : ExecScopes :=
  ⟨none, none, none, some ⟨[(1, ⟨.simpleDictionary []⟩)]⟩⟩

/-- Concrete state for `cache_contract_storage_2` in which the program's
`value` cell holds `42`, matching the oracle. -/
def sCache : VmState := ⟨2, [(⟨0, 0⟩, .int 1), (⟨0, 1⟩, .relocatableValue ⟨1, 0⟩),
  (⟨0, 2⟩, .int 42), (⟨1, 1⟩, .int 9)]⟩

/-- Like `sCache` but the program's `value` cell holds `7`, mismatching the
oracle value `42`. -/
def sCacheMismatch : VmState := ⟨2, [(⟨0, 0⟩, .int 1), (⟨0, 1⟩, .relocatableValue ⟨1, 0⟩),
  (⟨0, 2⟩, .int 7), (⟨1, 1⟩, .int 9)]⟩

/-- Identifier bindings for the `cache_contract_storage_2` runs. -/
def idsCache : Ids := [("contract_address", ⟨0, 0⟩), ("syscall_ptr", ⟨0, 1⟩), ("value", ⟨0, 2⟩)]

/-- Scope store whose oracle maps (contract 1, key 9) to `42`. -/
def scopesCache : ExecScopes := ⟨none, none, some ⟨[((1, 9), 42)]⟩, none⟩

/-- Concrete state carrying a legacy and a current response envelope that
describe the same expected retdata `[10, 11]` at `(4, 0)`, with the program
declaring actual retdata `[10, 11]` at `(3, 0)`. -/
def sResp : VmState := ⟨5, [
  (⟨0, 0⟩, .relocatableValue ⟨1, 0⟩),
  (⟨0, 1⟩, .relocatableValue ⟨2, 0⟩),
  (⟨0, 2⟩, .relocatableValue ⟨3, 0⟩),
  (⟨0, 3⟩, .int 2),
  (⟨1, 0⟩, .int 2),
  (⟨1, 1⟩, .relocatableValue ⟨4, 0⟩),
  (⟨2, 0⟩, .relocatableValue ⟨4, 0⟩),
  (⟨2, 1⟩, .relocatableValue ⟨4, 2⟩),
  (⟨3, 0⟩, .int 10), (⟨3, 1⟩, .int 11),
  (⟨4, 0⟩, .int 10), (⟨4, 1⟩, .int 11)]⟩

/-- Identifier bindings for the response-verifier runs on `sResp`. -/
def idsResp : Ids := [("call_response", ⟨0, 0⟩), ("response", ⟨0, 1⟩),
  ("retdata", ⟨0, 2⟩), ("retdata_size", ⟨0, 3⟩)]

/-- Concrete state with a passing deploy response envelope (empty
constructor retdata on both sides). -/
def sDeploy : VmState := ⟨3, [(⟨0, 0⟩, .relocatableValue ⟨1, 0⟩),
  (⟨0, 1⟩, .relocatableValue ⟨2, 0⟩), (⟨0, 2⟩, .int 0),
  (⟨1, 1⟩, .relocatableValue ⟨2, 5⟩), (⟨1, 2⟩, .relocatableValue ⟨2, 5⟩)]⟩

/-- Identifier bindings for the deploy-response run on `sDeploy`. -/
def idsDeploy : Ids := [("response", ⟨0, 0⟩), ("retdata", ⟨0, 1⟩), ("retdata_size", ⟨0, 2⟩)]

/-- Concrete state whose response envelope has `retdata_start` in segment 2
but `retdata_end` in segment 3, and whose deploy fields straddle segments 3
and 4. -/
def sCross : VmState := ⟨5, [(⟨0, 0⟩, .relocatableValue ⟨1, 0⟩),
  (⟨1, 0⟩, .relocatableValue ⟨2, 0⟩), (⟨1, 1⟩, .relocatableValue ⟨3, 5⟩),
  (⟨1, 2⟩, .relocatableValue ⟨4, 0⟩)]⟩

/-- Identifier bindings for the cross-segment runs on `sCross`. -/
def idsCross : Ids := [("response", ⟨0, 0⟩)]

/-- Concrete state with one written and one unwritten cell in each of two
ranges, agreeing positionwise. -/
def sSparse : VmState := ⟨2, [(⟨0, 0⟩, .int 1), (⟨1, 0⟩, .int 1)]⟩

/-- Concrete pre-state for `set_syscall_ptr`: segments 0 and 1 pre-exist and
nothing is written yet. -/
def sSet : VmState := ⟨2, []⟩

/-- Identifier bindings for the `set_syscall_ptr` run. -/
def idsSet : Ids := [("os_context", ⟨0, 0⟩), ("syscall_ptr", ⟨0, 1⟩)]

/-- Scope store holding an uninitialized OS syscall handler. -/
def scopesSet : ExecScopes := ⟨none, some ⟨none⟩, none, none⟩

/-- The VM state `set_syscall_ptr` produces from `sSet`. -/
def s2Set : VmState :=
  ⟨4, [(⟨0, 1⟩, .relocatableValue ⟨3, 0⟩), (⟨0, 0⟩, .relocatableValue ⟨2, 0⟩)]⟩

/-- The scope store `set_syscall_ptr` produces from `scopesSet`. -/
def scopes2Set : ExecScopes := ⟨none, some ⟨some ⟨3, 0⟩⟩, none, none⟩

/-- Concrete state for the `delegate_call` hint: `ids.syscall_ptr` holds the
pointer `(1, 0)`. -/
def sDel : VmState := ⟨2, [(⟨0, 0⟩, .relocatableValue ⟨1, 0⟩)]⟩

/-- Identifier bindings for the `delegate_call` run. -/
def idsDel : Ids := [("syscall_ptr", ⟨0, 0⟩)]

/-- Scope store holding a deprecated syscall handler. -/
def scopesDel : ExecScopes := ⟨some ⟨⟩, none, none, none⟩

theorem getRange_eq_iff (s : VmState) (a b : Relocatable) (n m : Nat) :
    s.getRange a n = s.getRange b m ↔
      (n = m ∧ ∀ i, i < n → s.memGet (a.addOff i) = s.memGet (b.addOff i)) := by
  constructor
  · intro h
    have hlen : n = m := by
      have := congrArg List.length h
      simpa [VmState.getRange] using this
    subst hlen
    refine ⟨rfl, ?_⟩
    intro i hi
    have h2 : (s.getRange a n)[i]? = (s.getRange b n)[i]? := by rw [h]
    simpa [VmState.getRange, List.getElem?_map, List.getElem?_range, hi] using h2
  · rintro ⟨rfl, hp⟩
    apply List.ext_getElem
    · simp [VmState.getRange]
    · intro i h1 h2
      simpa [VmState.getRange] using hp i (by simpa [VmState.getRange] using h1)

/-- Claim C1: the response-verifier primitive succeeds iff the two sizes are equal
and the two ranges agree elementwise; on any length or element difference it
returns the fatal assertion-failure error carrying both full sequences. -/
theorem assert_memory_ranges_equal_spec (s : VmState) (ep : Relocatable) (n : Nat)
    (ap : Relocatable) (m : Nat) :
    (assert_memory_ranges_equal s ep n ap m = .ok () ↔
      (n = m ∧ ∀ i, i < n → s.memGet (ep.addOff i) = s.memGet (ap.addOff i)))
    ∧ (assert_memory_ranges_equal s ep n ap m ≠ .ok () →
      assert_memory_ranges_equal s ep n ap m =
        .error (.assertionFailed
          (.returnValueMismatch (s.getRange ep n) (s.getRange ap m)))) := by
  constructor
  · rw [← getRange_eq_iff]
    by_cases h : s.getRange ep n = s.getRange ap m <;>
      simp [assert_memory_ranges_equal, h]
  · intro hne
    by_cases h : s.getRange ep n = s.getRange ap m
    · exact absurd (by simp [assert_memory_ranges_equal, h]) hne
    · simp [assert_memory_ranges_equal, h]

/-- Witness for C1 at a concrete state: expected `[1,2,3]` vs actual
`[1,2,4]` differ at the last element, so the primitive reports the
assertion failure carrying both sequences. -/
theorem assert_memory_ranges_equal_spec_witness :
    assert_memory_ranges_equal
        ⟨2, [(⟨0, 0⟩, .int 1), (⟨0, 1⟩, .int 2), (⟨0, 2⟩, .int 3),
             (⟨1, 0⟩, .int 1), (⟨1, 1⟩, .int 2), (⟨1, 2⟩, .int 4)]⟩
        ⟨0, 0⟩ 3 ⟨1, 0⟩ 3 =
      .error (.assertionFailed (.returnValueMismatch
        [some (.int 1), some (.int 2), some (.int 3)]
        [some (.int 1), some (.int 2), some (.int 4)])) := by
  have h := (assert_memory_ranges_equal_spec
      ⟨2, [(⟨0, 0⟩, .int 1), (⟨0, 1⟩, .int 2), (⟨0, 2⟩, .int 3),
           (⟨1, 0⟩, .int 1), (⟨1, 1⟩, .int 2), (⟨1, 2⟩, .int 4)]⟩
      ⟨0, 0⟩ 3 ⟨1, 0⟩ 3).2 (by decide)
  exact h.trans (by decide)

theorem ok_bind {ε α β : Type} (a : α) (f : α → Except ε β) :
    (Except.ok a : Except ε α) >>= f = f a := rfl

theorem error_bind {ε α β : Type} (e : ε) (f : α → Except ε β) :
    (Except.error e : Except ε α) >>= f = (.error e : Except ε β) := rfl

theorem except_bind_ok {ε α β : Type} {x : Except ε α} {f : α → Except ε β} {b : β} :
    x >>= f = Except.ok b ↔ ∃ a, x = Except.ok a ∧ f a = Except.ok b := by
  cases x with
  | error e => simp [Bind.bind, Except.bind]
  | ok a => simp [Bind.bind, Except.bind]

theorem insert_ok_numSegments {s s2 : VmState} {a : Relocatable} {v : MaybeRelocatable}
    (h : s.insert a v = .ok s2) : s2.numSegments = s.numSegments := by
  unfold VmState.insert at h
  split at h
  · simp at h
  · split at h
    · injection h with h; subst h; rfl
    · split at h
      · injection h with h; subst h; rfl
      · simp at h

theorem insert_ok_memGet_self {s s2 : VmState} {a : Relocatable} {v : MaybeRelocatable}
    (h : s.insert a v = .ok s2) : s2.memGet a = some v := by
  unfold VmState.insert at h
  split at h
  · simp at h
  · split at h
    · injection h with h; subst h; simp [VmState.memGet, memAssoc]
    · rename_i w hw
      split at h
      · rename_i hwv
        injection h with h
        subst h hwv
        simpa [VmState.memGet] using hw
      · simp at h

theorem insert_ok_memGet_other {s s2 : VmState} {a b : Relocatable} {v : MaybeRelocatable}
    (h : s.insert a v = .ok s2) (hba : b ≠ a) : s2.memGet b = s.memGet b := by
  unfold VmState.insert at h
  split at h
  · simp at h
  · split at h
    · injection h with h; subst h; simp [VmState.memGet, memAssoc, Ne.symm hba]
    · split at h
      · injection h with h; subst h; rfl
      · simp at h

theorem insert_ok_occupied {s s2 : VmState} {a : Relocatable} {v w : MaybeRelocatable}
    (hw : s.memGet a = some w) (h : s.insert a v = .ok s2) : w = v := by
  unfold VmState.insert at h
  unfold VmState.memGet at hw
  split at h
  · simp at h
  · split at h
    · rename_i heq
      rw [hw] at heq
      simp at heq
    · rename_i w2 heq
      rw [hw] at heq
      injection heq with heq
      split at h
      · rename_i hv
        rw [heq, hv]
      · simp at h

theorem cache_contract_storage_2_ok_state {s s2 : VmState} {scopes : ExecScopes} {ids : Ids}
    (h : cache_contract_storage_2 s scopes ids = .ok s2) : s2 = s := by
  unfold cache_contract_storage_2 at h
  simp only [except_bind_ok] at h
  obtain ⟨_, -, _, -, _, -, _, -, _, -, _, -, hfin⟩ := h
  split at hfin
  · simp at hfin
  · injection hfin with hfin
    exact hfin.symm

theorem check_syscall_response_ok_state {s s2 : VmState} {ids : Ids}
    (h : check_syscall_response s ids = .ok s2) : s2 = s := by
  unfold check_syscall_response at h
  simp only [except_bind_ok] at h
  obtain ⟨_, -, _, -, _, -, _, -, _, -, _, -, _, -, _, -, hfin⟩ := h
  injection hfin with hfin
  exact hfin.symm

theorem check_new_syscall_response_ok_state {s s2 : VmState} {ids : Ids}
    (h : check_new_syscall_response s ids = .ok s2) : s2 = s := by
  unfold check_new_syscall_response at h
  simp only [except_bind_ok] at h
  obtain ⟨_, -, _, -, _, -, _, -, _, -, _, -, _, -, _, -, hfin⟩ := h
  injection hfin with hfin
  exact hfin.symm

theorem check_new_deploy_response_ok_state {s s2 : VmState} {ids : Ids}
    (h : check_new_deploy_response s ids = .ok s2) : s2 = s := by
  unfold check_new_deploy_response at h
  simp only [except_bind_ok] at h
  obtain ⟨_, -, _, -, _, -, _, -, _, -, _, -, _, -, _, -, hfin⟩ := h
  injection hfin with hfin
  exact hfin.symm

/-- Claim C2: when the preliminary reads of `cache_contract_storage_2`
succeed, an oracle-lookup failure yields the storage-read error tagged with
the contract address and key; a successful lookup whose value differs from
the program's `value` cell yields the dedicated inconsistency error carrying
both values; and equal values yield success. -/
theorem cache_contract_storage_spec (s : VmState) (scopes : ExecScopes) (ids : Ids)
    (ca key idsValue : Nat) (sp : Relocatable) (eh : ExecutionHelper)
    (h1 : getIntegerFromVarName "contract_address" s ids = .ok ca)
    (h2 : getPtrFromVarName "syscall_ptr" s ids = .ok sp)
    (h3 : s.getInteger
      (sp.addOff (StorageRead.request_offset + StorageReadRequest.address_offset)) = .ok key)
    (h4 : getExecutionHelper scopes = .ok eh)
    (h5 : getIntegerFromVarName "value" s ids = .ok idsValue) :
    (readStorageForAddress eh ca key = none →
      cache_contract_storage_2 s scopes ids =
        .error (.customHint (.storageReadError ca key)))
    ∧ (∀ v, readStorageForAddress eh ca key = some v → idsValue ≠ v →
      cache_contract_storage_2 s scopes ids =
        .error (.assertionFailed (.inconsistentStorageValue idsValue v)))
    ∧ (∀ v, readStorageForAddress eh ca key = some v → idsValue = v →
      cache_contract_storage_2 s scopes ids = .ok s) := by
  refine ⟨?_, ?_, ?_⟩
  · intro hnone
    simp only [cache_contract_storage_2, h1, h2, h3, h4, h5, ok_bind,
      readStorageOrError, hnone, error_bind]
  · intro v hv hne
    simp only [cache_contract_storage_2, h1, h2, h3, h4, h5, ok_bind,
      readStorageOrError, hv]
    simp [hne]
  · intro v hv heq
    subst heq
    simp only [cache_contract_storage_2, h1, h2, h3, h4, h5, ok_bind,
      readStorageOrError, hv]
    simp

/-- Witness for C2: with the oracle mapping (contract 1, key 9) to 42, a
program `value` cell of 7 produces the inconsistency error carrying 7 and
42, and a `value` cell of 42 succeeds. -/
theorem cache_contract_storage_spec_witness :
    cache_contract_storage_2 sCacheMismatch scopesCache idsCache =
      .error (.assertionFailed (.inconsistentStorageValue 7 42))
    ∧ cache_contract_storage_2 sCache scopesCache idsCache = .ok sCache :=
  ⟨(cache_contract_storage_spec sCacheMismatch scopesCache idsCache 1 9 7 ⟨1, 0⟩
      ⟨[((1, 9), 42)]⟩ (by decide) (by decide) (by decide) (by decide) (by decide)).2.1
      42 (by decide) (by decide),
   (cache_contract_storage_spec sCache scopesCache idsCache 1 9 42 ⟨1, 0⟩
      ⟨[((1, 9), 42)]⟩ (by decide) (by decide) (by decide) (by decide) (by decide)).2.2
      42 (by decide) (by decide)⟩

/-- Counterexample for C3: run against a default-valued state-changes
dictionary at a concrete state, `fetch_state_entry_5` aborts with the
`panic!` message "State changes dict shouldn't be a default dict" — it does
not return an error value, contradicting the claim that the hint fails by
returning a named error and never panics. -/
theorem fetch_state_entry_default_dict_panics :
    fetch_state_entry_5 sFetch scopesFetchDefault idsFetch =
      .panic .stateChangesDefaultDict := by decide

/-- Claim C3 (amended): when the preliminary reads of `fetch_state_entry_5`
succeed, a default-valued state-changes dictionary — or a plain dictionary
with no entry for the looked-up contract address — makes the hint fail
fatally by panicking with a message naming the violated invariant; it never
returns success and never silently substitutes a default value. -/
theorem fetch_state_entry_invariant_panics (s : VmState) (scopes : ExecScopes) (ids : Ids)
    (key : Nat) (dictPtr : Relocatable) (dm : DictManager) (tracker : DictTracker)
    (h1 : getIntegerFromVarName "contract_address" s ids = .ok key)
    (h2 : getPtrFromVarName "contract_state_changes" s ids = .ok dictPtr)
    (h3 : getDictManager scopes = .ok dm)
    (h4 : getTracker dm dictPtr = .ok tracker) :
    (∀ d dv, tracker.data = .defaultDictionary d dv →
      fetch_state_entry_5 s scopes ids = .panic .stateChangesDefaultDict)
    ∧ (∀ d, tracker.data = .simpleDictionary d → dictAssoc d (.int key) = none →
      fetch_state_entry_5 s scopes ids = .panic .stateChangesDictNone) := by
  constructor
  · intro d dv hd
    simp only [fetch_state_entry_5, h1, h2, h3, h4, hd]
  · intro d hd hmiss
    simp only [fetch_state_entry_5, h1, h2, h3, h4, hd, hmiss]

/-- Witness for C3 (amended): at concrete states, the default-dictionary run
panics with the default-dict message and the missing-entry run panics with
the missing-entry message. -/
theorem fetch_state_entry_invariant_panics_witness :
    fetch_state_entry_5 sFetch scopesFetchDefault idsFetch =
      .panic .stateChangesDefaultDict
    ∧ fetch_state_entry_5 sFetch scopesFetchMissing idsFetch =
      .panic .stateChangesDictNone :=
  ⟨(fetch_state_entry_invariant_panics sFetch scopesFetchDefault idsFetch 5 ⟨1, 0⟩
      ⟨[(1, ⟨.defaultDictionary [] (.int 0)⟩)]⟩ ⟨.defaultDictionary [] (.int 0)⟩
      (by decide) (by decide) (by decide) (by decide)).1 [] (.int 0) (by decide),
   (fetch_state_entry_invariant_panics sFetch scopesFetchMissing idsFetch 5 ⟨1, 0⟩
      ⟨[(1, ⟨.simpleDictionary []⟩)]⟩ ⟨.simpleDictionary []⟩
      (by decide) (by decide) (by decide) (by decide)).2 [] (by decide) (by decide)⟩

/-- Claim C4 (code bug, exhibited): at a concrete state the `delegate_call`
hint resolves the handler and the syscall pointer and then invokes the
handler's `storage_write` method (src line 54), not the `delegate_call`
method that its own hint-source constant (src line 42) names. -/
theorem delegate_call_invokes_storage_write :
    delegate_call sDel scopesDel idsDel = .ok (.storageWrite, ⟨1, 0⟩)
    ∧ DeprecatedSyscallMethod.storageWrite ≠ delegateCallHintTextMethod :=
  ⟨by decide, by decide⟩

/-- Claim C5: every successful `set_syscall_ptr` run allocates exactly two
fresh segments, writes the first base into the `os_context` slot and the
second into the `syscall_ptr` slot, the two written addresses lie in
distinct segments, and the OS syscall handler's stored pointer equals the
written `syscall_ptr` address. -/
theorem set_syscall_ptr_spec (s : VmState) (scopes : ExecScopes) (ids : Ids)
    (s2 : VmState) (scopes2 : ExecScopes)
    (h : set_syscall_ptr s scopes ids = .ok (s2, scopes2)) :
    s2.numSegments = s.numSegments + 2
    ∧ getPtrFromVarName "os_context" s2 ids = .ok ⟨s.numSegments, 0⟩
    ∧ getPtrFromVarName "syscall_ptr" s2 ids = .ok ⟨s.numSegments + 1, 0⟩
    ∧ (Relocatable.mk s.numSegments 0).segmentIndex ≠
        (Relocatable.mk (s.numSegments + 1) 0).segmentIndex
    ∧ ∃ hdl : OsSyscallHandler, scopes2.syscallHandler = some hdl
        ∧ hdl.syscallPtr = some ⟨s.numSegments + 1, 0⟩ := by
  unfold set_syscall_ptr at h
  simp only [VmState.addMemorySegment] at h
  simp only [except_bind_ok] at h
  obtain ⟨s3, h3, s4, h4, hdl, hh, hfin⟩ := h
  injection hfin with hfin
  injection hfin with hfs hfsc
  subst hfs
  subst hfsc
  simp only [insertValueFromVarName, except_bind_ok] at h3 h4
  obtain ⟨a1, ha1, hi1⟩ := h3
  obtain ⟨a2, ha2, hi2⟩ := h4
  have hmem1 : s3.memGet a1 = some (.relocatableValue ⟨s.numSegments, 0⟩) :=
    insert_ok_memGet_self hi1
  have hne12 : a1 ≠ a2 := by
    intro hcontra
    subst hcontra
    have := insert_ok_occupied hmem1 hi2
    injection this with this
    injection this with hseg hoff
    omega
  have hmem1f : s4.memGet a1 = some (.relocatableValue ⟨s.numSegments, 0⟩) := by
    rw [insert_ok_memGet_other hi2 hne12]
    exact hmem1
  have hmem2f : s4.memGet a2 = some (.relocatableValue ⟨s.numSegments + 1, 0⟩) :=
    insert_ok_memGet_self hi2
  refine ⟨?_, ?_, ?_, ?_, ?_⟩
  · rw [insert_ok_numSegments hi2, insert_ok_numSegments hi1]
  · simp only [getPtrFromVarName, ha1, ok_bind, VmState.getRelocatable, hmem1f]
  · simp only [getPtrFromVarName, ha2, ok_bind, VmState.getRelocatable, hmem2f]
  · simp
  · exact ⟨{ hdl with syscallPtr := some ⟨s.numSegments + 1, 0⟩ }, rfl, rfl⟩

/-- Witness for C5: from a VM with segments 0 and 1 pre-existing, the run
allocates segments 2 and 3, `ids.os_context` reads back `(2, 0)` and
`ids.syscall_ptr` reads back `(3, 0)`. -/
theorem set_syscall_ptr_spec_witness :
    s2Set.numSegments = 2 + 2
    ∧ getPtrFromVarName "os_context" s2Set idsSet = .ok ⟨2, 0⟩
    ∧ getPtrFromVarName "syscall_ptr" s2Set idsSet = .ok ⟨3, 0⟩
    ∧ ∃ hdl : OsSyscallHandler, scopes2Set.syscallHandler = some hdl
        ∧ hdl.syscallPtr = some ⟨3, 0⟩ :=
  ⟨(set_syscall_ptr_spec sSet scopesSet idsSet s2Set scopes2Set (by decide)).1,
   (set_syscall_ptr_spec sSet scopesSet idsSet s2Set scopes2Set (by decide)).2.1,
   (set_syscall_ptr_spec sSet scopesSet idsSet s2Set scopes2Set (by decide)).2.2.1,
   (set_syscall_ptr_spec sSet scopesSet idsSet s2Set scopes2Set (by decide)).2.2.2.2⟩

/-- Claim C6: when the legacy envelope `(retdata, retdata_size)` and the
current envelope `(retdata_start, retdata_end)` decode to the same expected
pointer `p` and length `n`, and both hints read the same program-declared
actual `(retdata, retdata_size)`, then `check_syscall_response` and
`check_new_syscall_response` produce the same pass/fail verdict. -/
theorem response_check_encoding_equiv (s : VmState) (idsL idsN : Ids)
    (crp p rp re a : Relocatable) (nf mf n m : Nat)
    (h1 : getPtrFromVarName "call_response" s idsL = .ok crp)
    (h2 : s.getRelocatable (crp.addOff SyscallContractResponse.retdata_offset) = .ok p)
    (h3 : s.getInteger (crp.addOff SyscallContractResponse.retdata_size_offset) = .ok nf)
    (h4 : feltToUsize nf = .ok n)
    (h5 : getPtrFromVarName "response" s idsN = .ok rp)
    (h6 : s.getRelocatable
      (rp.addOff NewSyscallContractResponse.retdata_start_offset) = .ok p)
    (h7 : s.getRelocatable
      (rp.addOff NewSyscallContractResponse.retdata_end_offset) = .ok re)
    (h8 : re.sub p = .ok n)
    (h9 : getPtrFromVarName "retdata" s idsL = .ok a)
    (h10 : getPtrFromVarName "retdata" s idsN = .ok a)
    (h11 : getIntegerFromVarName "retdata_size" s idsL = .ok mf)
    (h12 : getIntegerFromVarName "retdata_size" s idsN = .ok mf)
    (h13 : feltToUsize mf = .ok m) :
    (check_syscall_response s idsL = .ok s ↔ check_new_syscall_response s idsN = .ok s) := by
  simp only [check_syscall_response, check_new_syscall_response,
    h1, h2, h3, h4, h5, h6, h7, h8, h9, h10, h11, h12, h13, ok_bind]

/-- Witness for C6 at a concrete state where both envelopes describe the
expected retdata `[10, 11]` at `(4, 0)` and the program declares the actual
`[10, 11]` at `(3, 0)`. -/
theorem response_check_encoding_equiv_witness :
    check_syscall_response sResp idsResp = .ok sResp ↔
      check_new_syscall_response sResp idsResp = .ok sResp :=
  response_check_encoding_equiv sResp idsResp idsResp ⟨1, 0⟩ ⟨4, 0⟩ ⟨2, 0⟩ ⟨4, 2⟩ ⟨3, 0⟩
    2 2 2 2 (by decide) (by decide) (by decide) (by decide) (by decide) (by decide)
    (by decide) (by decide) (by decide) (by decide) (by decide) (by decide) (by decide)

/-- Claim C7: when a current-encoding response's end pointer lies in a
different segment than its start pointer, `check_new_syscall_response`
(resp. `check_new_deploy_response`) returns the error of the pointer
subtraction instead of producing a size. -/
theorem new_response_cross_segment_fails (s : VmState) (idsN idsD : Ids)
    (rp rstart rend dp dstart dend : Relocatable)
    (h1 : getPtrFromVarName "response" s idsN = .ok rp)
    (h2 : s.getRelocatable
      (rp.addOff NewSyscallContractResponse.retdata_start_offset) = .ok rstart)
    (h3 : s.getRelocatable
      (rp.addOff NewSyscallContractResponse.retdata_end_offset) = .ok rend)
    (h4 : rend.segmentIndex ≠ rstart.segmentIndex)
    (h5 : getPtrFromVarName "response" s idsD = .ok dp)
    (h6 : s.getRelocatable
      (dp.addOff NewDeployResponse.constructor_retdata_start_offset) = .ok dstart)
    (h7 : s.getRelocatable
      (dp.addOff NewDeployResponse.constructor_retdata_end_offset) = .ok dend)
    (h8 : dend.segmentIndex ≠ dstart.segmentIndex) :
    check_new_syscall_response s idsN = .error (.subDiffSegments rend rstart)
    ∧ check_new_deploy_response s idsD = .error (.subDiffSegments dend dstart) := by
  constructor
  · simp only [check_new_syscall_response, h1, h2, h3, ok_bind]
    simp [Relocatable.sub, h4, error_bind]
  · simp only [check_new_deploy_response, h5, h6, h7, ok_bind]
    simp [Relocatable.sub, h8, error_bind]

/-- Witness for C7 at a concrete state: `retdata_start` in segment 2 with
`retdata_end` in segment 3, and constructor retdata fields straddling
segments 3 and 4, each yielding the subtraction error. -/
theorem new_response_cross_segment_fails_witness :
    check_new_syscall_response sCross idsCross =
      .error (.subDiffSegments ⟨3, 5⟩ ⟨2, 0⟩)
    ∧ check_new_deploy_response sCross idsCross =
      .error (.subDiffSegments ⟨4, 0⟩ ⟨3, 5⟩) :=
  new_response_cross_segment_fails sCross idsCross idsCross ⟨1, 0⟩ ⟨2, 0⟩ ⟨3, 5⟩
    ⟨1, 0⟩ ⟨3, 5⟩ ⟨4, 0⟩ (by decide) (by decide) (by decide) (by decide)
    (by decide) (by decide) (by decide) (by decide)

/-- Claim C8: the cross-check hints `cache_contract_storage_2`,
`check_syscall_response`, `check_new_syscall_response` and
`check_new_deploy_response` leave the VM state (memory cells and segment
count) unchanged whenever they succeed — and, returning `Except`, they
produce no state at all on their error paths, so no run ever alters the VM
state.  (The shared primitive `assert_memory_ranges_equal` takes the VM by
shared reference in the source and cannot write at all.) -/
theorem verifier_hints_frame (s : VmState) (scopes : ExecScopes) (ids : Ids) (s2 : VmState) :
    (cache_contract_storage_2 s scopes ids = .ok s2 → s2 = s)
    ∧ (check_syscall_response s ids = .ok s2 → s2 = s)
    ∧ (check_new_syscall_response s ids = .ok s2 → s2 = s)
    ∧ (check_new_deploy_response s ids = .ok s2 → s2 = s) :=
  ⟨cache_contract_storage_2_ok_state, check_syscall_response_ok_state,
   check_new_syscall_response_ok_state, check_new_deploy_response_ok_state⟩

/-- Witness for C8: each of the four hints run at a concrete state on which
it succeeds, showing the returned state is the input state. -/
theorem verifier_hints_frame_witness :
    sCache = sCache ∧ sResp = sResp ∧ sResp = sResp ∧ sDeploy = sDeploy :=
  ⟨(verifier_hints_frame sCache scopesCache idsCache sCache).1 (by decide),
   (verifier_hints_frame sResp scopesCache idsResp sResp).2.1 (by decide),
   (verifier_hints_frame sResp scopesCache idsResp sResp).2.2.1 (by decide),
   (verifier_hints_frame sDeploy scopesCache idsDeploy sDeploy).2.2.2 (by decide)⟩

/-- Claim C9: `cache_contract_storage_2` is idempotent — the oracle is a
stable precomputed map, so if one invocation succeeds, invoking it again on
the resulting (unchanged) state succeeds with the same state. -/
theorem cache_contract_storage_idempotent (s : VmState) (scopes : ExecScopes) (ids : Ids)
    (s2 : VmState) (h : cache_contract_storage_2 s scopes ids = .ok s2) :
    cache_contract_storage_2 s2 scopes ids = .ok s2 := by
  have hs : s2 = s := cache_contract_storage_2_ok_state h
  subst hs
  exact h

/-- Witness for C9: the concrete matching-value run succeeds, and rerunning
it on the returned state succeeds again. -/
theorem cache_contract_storage_idempotent_witness :
    cache_contract_storage_2 sCache scopesCache idsCache = .ok sCache :=
  cache_contract_storage_idempotent sCache scopesCache idsCache sCache (by decide)

/-- Claim C10: the memory-range equality primitive does not require cells
to be written — for two ranges of equal length whose unwritten cells occur
at the same positions and whose written cells agree, the check succeeds, so
an unwritten cell is never by itself reported as an error. -/
theorem memory_range_equality_tolerates_unwritten (s : VmState) (ep ap : Relocatable)
    (n m : Nat) (hnm : n = m)
    (hnone : ∀ i, i < n → (s.memGet (ep.addOff i) = none ↔ s.memGet (ap.addOff i) = none))
    (hval : ∀ i, i < n → s.memGet (ep.addOff i) ≠ none →
      s.memGet (ep.addOff i) = s.memGet (ap.addOff i)) :
    assert_memory_ranges_equal s ep n ap m = .ok () := by
  subst hnm
  have hranges : s.getRange ep n = s.getRange ap n := by
    rw [getRange_eq_iff]
    refine ⟨rfl, ?_⟩
    intro i hi
    by_cases hcell : s.memGet (ep.addOff i) = none
    · rw [hcell, ((hnone i hi).mp hcell).symm]
    · exact hval i hi hcell
  simp [assert_memory_ranges_equal, hranges]

/-- Witness for C10: two ranges of length 2 whose first cells hold `1` and
whose second cells are unwritten compare equal. -/
theorem memory_range_equality_tolerates_unwritten_witness :
    assert_memory_ranges_equal sSparse ⟨0, 0⟩ 2 ⟨1, 0⟩ 2 = .ok () :=
  memory_range_equality_tolerates_unwritten sSparse ⟨0, 0⟩ ⟨1, 0⟩ 2 2 rfl
    (by decide) (by decide)
